import Mathlib

/-!
Verification of the cosmic-radiation risk calculator (`src/app.py`).

The program is a single Streamlit page: it fetches a JSON feed of proton-flux
records, filters them to the ">=10 MeV" energy band after coercing the flux
field to a number (unparseable values become absent and are dropped), takes the
positionally last surviving record as the current flux (falling back to 100 on
any failure in the fetch/parse/index pipeline), and runs a closed-form dose and
risk computation.

Python float arithmetic is embedded as exact rational arithmetic over ℚ; all
spec-level literals (0.00005, 0.7, 0.63, ...) are exact decimal fractions so the
claims are settled over their exact values.  A record's `flux` field is embedded
as `Option ℚ`: the result of `pd.to_numeric(..., errors='coerce')`, with `none`
standing for NaN (an unparseable value).  `time_tag` is embedded as an integer
UTC instant (the result of `pd.to_datetime`); a feed whose fetch or JSON decode
fails is `none` at the `Option (List RawRecord)` level, which reproduces the
bare `except:` fallback of lines 28-44.
-/

/-- The shielding dict of `app.py` line 48, kept as an association list so the
declared key order (`None`, `Aluminum`, `Polyethylene`) is preserved — the
comparison table iterates over it in this order. -/
def shield_factors_list : List (String × ℚ) :=
  [("None", 1.0), ("Aluminum", 0.7), ("Polyethylene", 0.5)]

/-- Dict lookup `shield_factors[material]`; `none` embeds Python's `KeyError`. -/
def shield_factors (material : String) : Option ℚ :=
  (shield_factors_list.find? (fun p => p.1 == material)).map Prod.snd

/-- The options offered by the shielding selectbox (`app.py` line 23). -/
def shielding_options : List String :=
  ["None", "Aluminum", "Polyethylene"]

/-- Risk categories displayed at `app.py` lines 61-66 (emoji labels dropped). -/
inductive Category
  | Low
  | Moderate
  | High
deriving DecidableEq, Repr

/-- The threshold chain of `app.py` lines 61-66:
`if risk_percent < 1: Low elif risk_percent < 5: Moderate else: High`. -/
def category (risk_percent : ℚ) : Category :=
  if risk_percent < 1 then Category.Low
  else if risk_percent < 5 then Category.Moderate
  else Category.High

/-- The derived quantities computed at `app.py` lines 47-66. -/
structure DoseEstimate where
  base_dose_per_day : ℚ
  daily_dose : ℚ
  total_dose : ℚ
  risk_percent : ℚ
  xray_equiv : ℚ
  category : Category
deriving DecidableEq, Repr

/-- The dose/risk computation of `app.py` lines 47-66.  The only failure is the
dict lookup `shield_factors[shielding_material]` (a `KeyError` for a key outside
the dict); the duration is used as-is with no range check. -/
def compute (flux : ℚ) (mission_days : ℕ) (shielding_material : String) :
    Option DoseEstimate :=
  match shield_factors shielding_material with
  | none => none
  | some factor =>
    let base_dose_per_day := flux * 0.00005
    let daily_dose := base_dose_per_day * factor
    let total_dose := daily_dose * (mission_days : ℚ)
    let risk_percent := (total_dose / 1000) * 5
    let xray_equiv := total_dose / 0.1
    some ⟨base_dose_per_day, daily_dose, total_dose, risk_percent, xray_equiv,
      category risk_percent⟩

/-- One raw record of the JSON feed after the per-column conversions of
`app.py` lines 31-32: `time_tag` already a UTC instant, `flux` the result of
`pd.to_numeric(..., errors='coerce')` (`none` = NaN), `energy` the band label. -/
structure RawRecord where
  time_tag : ℤ
  flux : Option ℚ
  energy : String
deriving DecidableEq, Repr

/-- `df = df[df['energy'] == '>=10 MeV'].dropna()` (`app.py` line 33): keep the
records whose band label is exactly ">=10 MeV" and whose flux coerced to a
number (rows with NaN flux are dropped by `dropna`). -/
def filterFlux (records : List RawRecord) : List RawRecord :=
  (records.filter (fun r => r.energy == ">=10 MeV")).filter
    (fun r => r.flux.isSome)

/-- `flux = df['flux'].iloc[-1]` (`app.py` line 35): the positionally last
record of the filtered frame; `none` when no record survives (the `IndexError`
swallowed by the bare `except:`). -/
def currentFlux (records : List RawRecord) : Option ℚ :=
  ((filterFlux records).getLast?).bind RawRecord.flux

/-- The whole `try` block seen from outside: `none` when the network call or
JSON decode fails (`feed = none`) or when no record survives filtering. -/
def fetchFlux (feed : Option (List RawRecord)) : Option ℚ :=
  feed.bind currentFlux

/-- The flux value the calculation runs on: the live value, or the fallback
`flux = 100` of `app.py` line 43. -/
def resolvedFlux (feed : Option (List RawRecord)) : ℚ :=
  (fetchFlux feed).getD 100

/-- Whether the `st.warning` advisory of `app.py` line 44 is shown: exactly
when the `except:` branch ran. -/
def usedFallback (feed : Option (List RawRecord)) : Bool :=
  (fetchFlux feed).isNone

/-- The shielding-effectiveness table `df_shield` of `app.py` lines 71-75: one
row per `shield_factors` entry, in dict order, with
`Dose per Day = base_dose_per_day * factor` from the selected flux. -/
def df_shield (flux : ℚ) : List (String × ℚ × ℚ) :=
  shield_factors_list.map (fun p => (p.1, p.2, flux * 0.00005 * p.2))

/-- Everything one page run produces that the claims mention. -/
structure AppOutput where
  flux : ℚ
  warning : Bool
  estimate : Option DoseEstimate
  table : List (String × ℚ × ℚ)
deriving Repr

/-- One invocation of the page: resolve the flux (with fallback), run the dose
computation, build the comparison table. -/
def runApp (feed : Option (List RawRecord)) (mission_days : ℕ)
    (shielding_material : String) : AppOutput :=
  { flux := resolvedFlux feed
    warning := usedFallback feed
    estimate := compute (resolvedFlux feed) mission_days shielding_material
    table := df_shield (resolvedFlux feed) }

/-- The record of the filtered series with the greatest timestamp (later
records win ties), i.e. the last element by ascending time order.  This is what
the spec calls the "time-max" reading; the code itself takes the positionally
last record instead. -/
def timeMaxRecord : List RawRecord → Option RawRecord
  | [] => none
  | [r] => some r
  | r :: r' :: rs =>
    match timeMaxRecord (r' :: rs) with
    | none => some r
    | some m => if m.time_tag < r.time_tag then some r else some m

/-! ### Helper lemmas -/

lemma shield_factors_none : shield_factors "None" = some 1.0 := by
  simp [shield_factors, shield_factors_list]

lemma shield_factors_aluminum : shield_factors "Aluminum" = some 0.7 := by
  simp [shield_factors, shield_factors_list]

lemma shield_factors_poly : shield_factors "Polyethylene" = some 0.5 := by
  simp [shield_factors, shield_factors_list]

/-- Every factor in the catalog is positive. -/
lemma shield_factors_pos (s : String) (f : ℚ)
    (h : shield_factors s = some f) : 0 < f := by
  unfold shield_factors at h
  rcases hfind : shield_factors_list.find? (fun p => p.1 == s) with _ | p <;>
    rw [hfind] at h
  · exact Option.noConfusion h
  · have hf : p.2 = f := by injection h
    have hmem := List.mem_of_find?_eq_some hfind
    simp only [shield_factors_list, List.mem_cons, List.mem_singleton,
      List.not_mem_nil, or_false] at hmem
    rcases hmem with rfl | rfl | rfl <;> rw [← hf] <;> norm_num

/-- `compute` fully evaluated once the factor lookup succeeds. -/
lemma compute_eq (flux : ℚ) (d : ℕ) (s : String) (f : ℚ)
    (hs : shield_factors s = some f) :
    compute flux d s =
      some ⟨flux * 0.00005, flux * 0.00005 * f, flux * 0.00005 * f * d,
        flux * 0.00005 * f * d / 1000 * 5, flux * 0.00005 * f * d / 0.1,
        category (flux * 0.00005 * f * d / 1000 * 5)⟩ := by
  simp [compute, hs]

/-! ### Claim statements (propositional abbreviations used by theorems and
their witnesses) -/

/-- The five dose formulas of `app.py` lines 47-52, as relations between the
fields of the returned estimate. -/
def DoseFormulasAt (flux : ℚ) (d : ℕ) (s : String) (f : ℚ) : Prop :=
  ∃ e, compute flux d s = some e ∧
    e.base_dose_per_day = flux * 0.00005 ∧
    e.daily_dose = e.base_dose_per_day * f ∧
    e.total_dose = e.daily_dose * d ∧
    e.risk_percent = e.total_dose / 1000 * 5 ∧
    e.xray_equiv = e.total_dose / 0.1

/-- The literal scenario of the spec: flux 100, 180 days, Aluminum. -/
def LiteralScenario : Prop :=
  ∃ e, compute 100 180 "Aluminum" = some e ∧
    e.base_dose_per_day = 0.005 ∧ e.daily_dose = 0.0035 ∧
    e.total_dose = 0.63 ∧ e.risk_percent = 0.00315 ∧ e.xray_equiv = 6.3

/-! ### Claims -/

/-- C1: for every flux and every duration in [1,1000] with a catalog shielding,
the calculator returns `base_dose_per_day = flux * 0.00005`,
`daily_dose = base_dose_per_day * factor` with factors
{None: 1.0, Aluminum: 0.7, Polyethylene: 0.5},
`total_dose = daily_dose * duration_days`,
`risk_percent = (total_dose / 1000) * 5`, `xray_equivalent = total_dose / 0.1`;
and the literal scenario flux = 100, 180 days, Aluminum yields 0.005, 0.0035,
0.63, 0.00315 and 6.3. -/
theorem C1_dose_formulas (flux : ℚ) (d : ℕ) (hd1 : 1 ≤ d) (hd2 : d ≤ 1000)
    (s : String) (f : ℚ) (hs : shield_factors s = some f) :
    DoseFormulasAt flux d s f ∧
    shield_factors "None" = some 1.0 ∧
    shield_factors "Aluminum" = some 0.7 ∧
    shield_factors "Polyethylene" = some 0.5 ∧
    LiteralScenario := by
  refine ⟨⟨_, compute_eq flux d s f hs, rfl, rfl, rfl, rfl, rfl⟩,
    shield_factors_none, shield_factors_aluminum, shield_factors_poly,
    ⟨_, compute_eq 100 180 "Aluminum" 0.7 shield_factors_aluminum,
      by norm_num, by norm_num, by norm_num, by norm_num, by norm_num⟩⟩

/-- Witness for C1 at flux = 100, d = 180, Aluminum. -/
theorem C1_dose_formulas_witness :
    (1 ≤ 180 ∧ 180 ≤ 1000 ∧ shield_factors "Aluminum" = some 0.7) ∧
    (DoseFormulasAt 100 180 "Aluminum" 0.7 ∧
      shield_factors "None" = some 1.0 ∧
      shield_factors "Aluminum" = some 0.7 ∧
      shield_factors "Polyethylene" = some 0.5 ∧
      LiteralScenario) :=
  ⟨⟨by norm_num, by norm_num, shield_factors_aluminum⟩,
    C1_dose_formulas 100 180 (by norm_num) (by norm_num) "Aluminum" 0.7
      shield_factors_aluminum⟩

/-- C2: the risk category is Low iff risk_percent < 1, Moderate iff
1 ≤ risk_percent < 5, High iff risk_percent ≥ 5; in particular 1.0 maps to
Moderate and 5.0 maps to High. -/
theorem C2_category_thresholds (r : ℚ) :
    (category r = Category.Low ↔ r < 1) ∧
    (category r = Category.Moderate ↔ 1 ≤ r ∧ r < 5) ∧
    (category r = Category.High ↔ 5 ≤ r) ∧
    category 1 = Category.Moderate ∧
    category 5 = Category.High := by
  have hLow : category r = Category.Low ↔ r < 1 := by
    unfold category
    split_ifs with h1 h2
    · exact ⟨fun _ => h1, fun _ => rfl⟩
    · exact ⟨(fun h => nomatch h), fun h => absurd h h1⟩
    · exact ⟨(fun h => nomatch h), fun h => absurd h h1⟩
  have hMod : category r = Category.Moderate ↔ 1 ≤ r ∧ r < 5 := by
    unfold category
    split_ifs with h1 h2
    · exact ⟨(fun h => nomatch h), fun hh => absurd h1 (not_lt.mpr hh.1)⟩
    · exact ⟨fun _ => ⟨not_lt.mp h1, h2⟩, fun _ => rfl⟩
    · exact ⟨(fun h => nomatch h), fun hh => absurd hh.2 h2⟩
  have hHigh : category r = Category.High ↔ 5 ≤ r := by
    unfold category
    split_ifs with h1 h2
    · exact ⟨(fun h => nomatch h), fun h => absurd h1 (not_lt.mpr (by linarith))⟩
    · exact ⟨(fun h => nomatch h), fun h => absurd h2 (not_lt.mpr h)⟩
    · exact ⟨fun _ => not_lt.mp h2, fun _ => rfl⟩
  exact ⟨hLow, hMod, hHigh, by norm_num [category], by norm_num [category]⟩

/-- C3: whenever the flux pipeline is unavailable (network/JSON failure or zero
surviving records), the calculation proceeds with flux = 100, the operator is
warned that live data was not used, and (for any selectbox shielding) no
further error is raised. -/
theorem C3_fallback (feed : Option (List RawRecord))
    (h : fetchFlux feed = none) (d : ℕ) (s : String)
    (hs : s ∈ shielding_options) :
    (runApp feed d s).flux = 100 ∧
    (runApp feed d s).warning = true ∧
    ((runApp feed d s).estimate).isSome = true := by
  have hflux : resolvedFlux feed = 100 := by simp [resolvedFlux, h]
  refine ⟨hflux, by simp [runApp, usedFallback, h], ?_⟩
  show (compute (resolvedFlux feed) d s).isSome = true
  rw [hflux]
  simp only [shielding_options, List.mem_cons, List.mem_singleton,
    List.not_mem_nil, or_false] at hs
  rcases hs with rfl | rfl | rfl <;>
    simp [compute, shield_factors, shield_factors_list]

/-- Witness for C3: a failed fetch with the default inputs. -/
theorem C3_fallback_witness :
    (fetchFlux none = none ∧ "None" ∈ shielding_options) ∧
    ((runApp none 180 "None").flux = 100 ∧
      (runApp none 180 "None").warning = true ∧
      ((runApp none 180 "None").estimate).isSome = true) :=
  ⟨⟨rfl, by simp [shielding_options]⟩,
    C3_fallback none rfl 180 "None" (by simp [shielding_options])⟩

/-- C4 counterexample: duration 2000 is outside [1,1000], yet the calculation
proceeds and returns an estimate — the calculator performs no duration range
check, so it does not signal an input error there. -/
theorem C4_counterexample :
    ¬ (2000 : ℕ) ≤ 1000 ∧ (compute 100 2000 "Aluminum").isSome = true := by
  refine ⟨by norm_num, ?_⟩
  simp [compute, shield_factors, shield_factors_list]

/-- C4 amended: the calculation fails (and does not produce an estimate)
exactly when the shielding is not a key of `shield_factors` (the dict lookup
raises); `duration_days` is never validated by the calculation — out-of-range
durations are prevented only by the UI slider bounds, not by the calculator. -/
theorem C4_amended (flux : ℚ) (d : ℕ) (s : String) :
    (compute flux d s).isNone = true ↔ shield_factors s = none := by
  cases h : shield_factors s <;> simp [compute, h]

/-- One step-unfolding equation for `timeMaxRecord` on a two-or-more list. -/
lemma timeMaxRecord_cons_cons (r r2 : RawRecord) (rs : List RawRecord) :
    timeMaxRecord (r :: r2 :: rs) =
      match timeMaxRecord (r2 :: rs) with
      | none => some r
      | some m => if m.time_tag < r.time_tag then some r else some m := rfl

/-- In a run ascending by timestamp, the last element bounds every element. -/
lemma le_getLast_of_chain :
    ∀ (l : List RawRecord) (m : RawRecord),
      List.Chain' (fun a b => a.time_tag ≤ b.time_tag) l →
      l.getLast? = some m → ∀ x ∈ l, x.time_tag ≤ m.time_tag := by
  intro l
  induction l with
  | nil => intro m _ hlast; simp at hlast
  | cons r tail ih =>
    intro m hc hlast x hx
    cases tail with
    | nil =>
      simp at hlast hx
      subst hlast
      subst hx
      exact le_refl _
    | cons r2 rs =>
      rw [List.getLast?_cons_cons] at hlast
      rw [List.chain'_cons] at hc
      rcases List.mem_cons.mp hx with rfl | hx2
      · exact le_trans hc.1
          (ih m hc.2 hlast r2 (List.mem_cons_self _ _))
      · exact ih m hc.2 hlast x hx2

/-- On a run ascending by timestamp, the time-max record is the positionally
last record. -/
lemma timeMaxRecord_eq_getLast :
    ∀ l : List RawRecord,
      List.Chain' (fun a b => a.time_tag ≤ b.time_tag) l →
      timeMaxRecord l = l.getLast? := by
  intro l
  induction l with
  | nil => intro _; rfl
  | cons r tail ih =>
    intro hc
    cases tail with
    | nil => simp [timeMaxRecord]
    | cons r2 rs =>
      rw [List.chain'_cons] at hc
      obtain ⟨m, hm⟩ : ∃ m, (r2 :: rs).getLast? = some m := by
        cases h : (r2 :: rs).getLast? with
        | none => simp at h
        | some m => exact ⟨m, rfl⟩
      have hr : r.time_tag ≤ m.time_tag :=
        le_trans hc.1 (le_getLast_of_chain _ m hc.2 hm r2 (List.mem_cons_self _ _))
      rw [List.getLast?_cons_cons, hm, timeMaxRecord_cons_cons, ih hc.2, hm]
      show (if m.time_tag < r.time_tag then some r else some m) = some m
      rw [if_neg (not_lt.mpr hr)]

/-- The filtered series is ascending by timestamp (the spec's FluxSeries
ordering invariant; the raw feed need not satisfy it). -/
def AscendingByTime (l : List RawRecord) : Prop :=
  List.Chain' (fun a b => a.time_tag ≤ b.time_tag) l

/-- Strict growth of total dose and risk percent from duration d₁ to d₂. -/
def StrictInDuration (flux : ℚ) (s : String) (d₁ d₂ : ℕ) : Prop :=
  ∃ e₁ e₂, compute flux d₁ s = some e₁ ∧ compute flux d₂ s = some e₂ ∧
    e₁.total_dose < e₂.total_dose ∧ e₁.risk_percent < e₂.risk_percent

/-- Ordering the shielding options by factor orders the daily dose the same
way: Polyethylene < Aluminum < None. -/
def ShieldOrderingAt (flux : ℚ) (d : ℕ) : Prop :=
  ∃ ep ea en, compute flux d "Polyethylene" = some ep ∧
    compute flux d "Aluminum" = some ea ∧ compute flux d "None" = some en ∧
    ep.daily_dose < ea.daily_dose ∧ ea.daily_dose < en.daily_dose

/-- C5 counterexample: at flux = 0 (which satisfies flux ≥ 0) the total dose is
0 for every duration, so total_dose and risk_percent are not strictly
increasing in duration_days — the claim fails for flux = 0. -/
theorem C5_counterexample :
    (0:ℚ) ≤ 0 ∧
    (compute 0 1 "None").map DoseEstimate.total_dose = some 0 ∧
    (compute 0 2 "None").map DoseEstimate.total_dose = some 0 := by
  refine ⟨le_refl 0, ?_, ?_⟩ <;>
    simp [compute_eq 0 _ "None" 1.0 shield_factors_none]

/-- C5 amended: for every flux > 0 (rather than flux ≥ 0), with shielding held
fixed, total_dose and risk_percent are strictly increasing in duration_days,
and with flux and duration held fixed the factor order Polyethylene < Aluminum
< None gives the same strict order of daily_dose. -/
theorem C5_amended (flux : ℚ) (hf : 0 < flux) (s : String) (f : ℚ)
    (hs : shield_factors s = some f) (d₁ d₂ d : ℕ) (hd : d₁ < d₂) :
    StrictInDuration flux s d₁ d₂ ∧ ShieldOrderingAt flux d := by
  have hfpos := shield_factors_pos s f hs
  have hbase : (0:ℚ) < flux * 0.00005 := mul_pos hf (by norm_num)
  have hc : (d₁:ℚ) < (d₂:ℚ) := by exact_mod_cast hd
  constructor
  · refine ⟨_, _, compute_eq flux d₁ s f hs, compute_eq flux d₂ s f hs, ?_, ?_⟩
    · show flux * 0.00005 * f * (d₁:ℚ) < flux * 0.00005 * f * (d₂:ℚ)
      exact mul_lt_mul_of_pos_left hc (mul_pos hbase hfpos)
    · show flux * 0.00005 * f * (d₁:ℚ) / 1000 * 5 <
        flux * 0.00005 * f * (d₂:ℚ) / 1000 * 5
      have := mul_lt_mul_of_pos_left hc (mul_pos hbase hfpos)
      linarith
  · refine ⟨_, _, _, compute_eq flux d "Polyethylene" 0.5 shield_factors_poly,
      compute_eq flux d "Aluminum" 0.7 shield_factors_aluminum,
      compute_eq flux d "None" 1.0 shield_factors_none, ?_, ?_⟩
    · show flux * 0.00005 * 0.5 < flux * 0.00005 * 0.7
      exact mul_lt_mul_of_pos_left (by norm_num) hbase
    · show flux * 0.00005 * 0.7 < flux * 0.00005 * 1.0
      exact mul_lt_mul_of_pos_left (by norm_num) hbase

/-- Witness for C5 amended at flux = 100, durations 1 < 2, 180-day table. -/
theorem C5_amended_witness :
    ((0:ℚ) < 100 ∧ shield_factors "Aluminum" = some 0.7 ∧ 1 < 2) ∧
    (StrictInDuration 100 "Aluminum" 1 2 ∧ ShieldOrderingAt 100 180) :=
  ⟨⟨by norm_num, shield_factors_aluminum, by norm_num⟩,
    C5_amended 100 (by norm_num) "Aluminum" 0.7 shield_factors_aluminum 1 2 180
      (by norm_num)⟩

/-- C6 counterexample: a feed whose records are not in ascending time order.
Both records survive filtering; the code consumes the positionally last record
(flux 3, at time 1), while the time-maximum record of the series is the one at
time 2 with flux 5 — so the consumed value is not the time-max element. -/
theorem C6_counterexample :
    currentFlux [⟨2, some 5, ">=10 MeV"⟩, ⟨1, some 3, ">=10 MeV"⟩] = some 3 ∧
    (timeMaxRecord (filterFlux
        [⟨2, some 5, ">=10 MeV"⟩, ⟨1, some 3, ">=10 MeV"⟩])).bind
      RawRecord.flux = some 5 := by
  constructor <;>
    simp [currentFlux, filterFlux, timeMaxRecord]

/-- C6 amended: the code consumes the positionally last record of the filtered
series; this equals the time-maximum reading whenever the filtered series is
ascending by timestamp (the spec's FluxSeries ordering invariant), but the code
itself never sorts, so the equality needs that invariant as a hypothesis. -/
theorem C6_amended (records : List RawRecord)
    (hsorted : AscendingByTime (filterFlux records)) :
    currentFlux records =
      (timeMaxRecord (filterFlux records)).bind RawRecord.flux := by
  unfold currentFlux
  rw [timeMaxRecord_eq_getLast _ hsorted]

/-- Witness for C6 amended on a two-record ascending feed. -/
theorem C6_amended_witness :
    AscendingByTime (filterFlux
      [⟨1, some 3, ">=10 MeV"⟩, ⟨2, some 5, ">=10 MeV"⟩]) ∧
    currentFlux [⟨1, some 3, ">=10 MeV"⟩, ⟨2, some 5, ">=10 MeV"⟩] =
      (timeMaxRecord (filterFlux
        [⟨1, some 3, ">=10 MeV"⟩, ⟨2, some 5, ">=10 MeV"⟩])).bind
        RawRecord.flux := by
  have h : AscendingByTime (filterFlux
      [⟨1, some 3, ">=10 MeV"⟩, ⟨2, some 5, ">=10 MeV"⟩]) := by
    simp [AscendingByTime, filterFlux]
  exact ⟨h, C6_amended _ h⟩

/-- C7: the shielding comparison table has exactly one row per catalog entry,
in declared order, each row's per-day dose being base_dose_per_day * factor
from the selected flux, and the table is identical across two invocations that
differ only in the mission duration. -/
theorem C7_table (feed : Option (List RawRecord)) (d₁ d₂ : ℕ) (s : String) :
    (runApp feed d₁ s).table = (runApp feed d₂ s).table ∧
    (runApp feed d₁ s).table.length = shield_factors_list.length ∧
    (runApp feed d₁ s).table.map (fun row => row.1) =
      ["None", "Aluminum", "Polyethylene"] ∧
    (runApp feed d₁ s).table =
      shield_factors_list.map
        (fun p => (p.1, p.2, (runApp feed d₁ s).flux * 0.00005 * p.2)) := by
  refine ⟨rfl, ?_, ?_, rfl⟩ <;> simp [runApp, df_shield, shield_factors_list]

/-- C8: the series consumed downstream consists of exactly the raw records
whose energy label is exactly ">=10 MeV" and whose flux parsed to a number;
records with unparseable flux are dropped.  The filtered series is a sublist of
the feed (order preserved, nothing added). -/
theorem C8_filter (records : List RawRecord) (r : RawRecord) :
    (r ∈ filterFlux records ↔
      r ∈ records ∧ r.energy = ">=10 MeV" ∧ r.flux.isSome = true) ∧
    (filterFlux records).Sublist records := by
  constructor
  · simp only [filterFlux, List.mem_filter, beq_iff_eq, Option.isSome]
    tauto
  · exact List.Sublist.trans (List.filter_sublist _) (List.filter_sublist _)

/-- The conclusion of C10 at one input: on fallback flux 100, the risk is at
most 0.025 % and the category is Low. -/
def FallbackLowAt (d : ℕ) (s : String) : Prop :=
  ∃ e, compute 100 d s = some e ∧ e.risk_percent ≤ 0.025 ∧
    e.category = Category.Low

/-- C10: on the fallback path (flux = 100), for every duration in [1,1000] and
every catalog shielding, risk_percent ≤ 0.025 and the category is Low. -/
theorem C10_fallback_low (d : ℕ) (hd1 : 1 ≤ d) (hd2 : d ≤ 1000) (s : String)
    (hs : s ∈ shielding_options) : FallbackLowAt d s := by
  have hdq : (d:ℚ) ≤ 1000 := by exact_mod_cast hd2
  simp only [shielding_options, List.mem_cons, List.mem_singleton,
    List.not_mem_nil, or_false] at hs
  rcases hs with rfl | rfl | rfl
  · refine ⟨_, compute_eq 100 d "None" 1.0 shield_factors_none, ?_, ?_⟩
    · show (100:ℚ) * 0.00005 * 1.0 * (d:ℚ) / 1000 * 5 ≤ 0.025
      linarith
    · show category ((100:ℚ) * 0.00005 * 1.0 * (d:ℚ) / 1000 * 5) = Category.Low
      unfold category
      rw [if_pos (by linarith)]
  · refine ⟨_, compute_eq 100 d "Aluminum" 0.7 shield_factors_aluminum, ?_, ?_⟩
    · show (100:ℚ) * 0.00005 * 0.7 * (d:ℚ) / 1000 * 5 ≤ 0.025
      linarith
    · show category ((100:ℚ) * 0.00005 * 0.7 * (d:ℚ) / 1000 * 5) = Category.Low
      unfold category
      rw [if_pos (by linarith)]
  · refine ⟨_, compute_eq 100 d "Polyethylene" 0.5 shield_factors_poly, ?_, ?_⟩
    · show (100:ℚ) * 0.00005 * 0.5 * (d:ℚ) / 1000 * 5 ≤ 0.025
      linarith
    · show category ((100:ℚ) * 0.00005 * 0.5 * (d:ℚ) / 1000 * 5) = Category.Low
      unfold category
      rw [if_pos (by linarith)]

/-- Witness for C10 at the worst case: duration 1000 and no shielding. -/
theorem C10_fallback_low_witness :
    (1 ≤ 1000 ∧ 1000 ≤ 1000 ∧ "None" ∈ shielding_options) ∧
    FallbackLowAt 1000 "None" :=
  ⟨⟨by norm_num, le_refl _, by simp [shielding_options]⟩,
    C10_fallback_low 1000 (by norm_num) (le_refl _) "None"
      (by simp [shielding_options])⟩
